import Mathlib

/-!
Shallow embedding of the scan-session / duplicate-guarded save pipeline of
the Qr-Scaner application (src/App.tsx, src/types.ts,
src/services/geminiService.ts, plus the earlier App revision in
src/unnamed/part_001).

External effects (the Supabase store, the Gemini annotation call, id and
clock generation) are modelled by explicit oracle parameters; the remote
store is a list of rows carried alongside the component state, and every
network request a code path issues is recorded in a trace.
-/

namespace QrScaner

/-- Status field of `ScannedRecord` (src/types.ts). -/
inductive RecStatus
  | pending
  | synced
deriving DecidableEq, Repr

/-- `ScanSession` (src/types.ts): two nullable slots. -/
structure ScanSession where
  partNumber : Option String
  uniqueCode : Option String
deriving DecidableEq, Repr

/-- `ScanTarget` enum (src/types.ts). -/
inductive ScanTarget
  | PART_NUMBER
  | UNIQUE_CODE
deriving DecidableEq, Repr

/-- `ScannedRecord` (src/types.ts); `analysis` is optional. -/
structure ScannedRecord where
  id : String
  partNumber : String
  uniqueCode : String
  timestamp : String
  status : RecStatus
  analysis : Option String
deriving DecidableEq, Repr

/-- A row of the remote `scanned_records` table (snake_case shape used by
the Supabase calls in src/App.tsx). -/
structure DbRow where
  id : String
  part_number : String
  unique_code : String
  timestamp : String
  analysis : String
deriving DecidableEq, Repr

/-- JavaScript truth-test `!s` on a nullable string: true for
`null`/`undefined` and for the empty string. -/
def falsy : Option String → Bool
  | none => true
  | some s => s == ""

/-- The React component state of `App` that the save pipeline touches. -/
structure AppState where
  records : List ScannedRecord
  session : ScanSession
  error : Option String
  success : Option String
  isAnalyzing : Bool
deriving DecidableEq, Repr

/-- Component state together with the remote store contents. -/
structure World where
  app : AppState
  store : List DbRow
deriving DecidableEq, Repr

/-- The `.eq('unique_code', code).maybeSingle()` query against the store. -/
def dbLookup (store : List DbRow) (code : String) : Option DbRow :=
  store.find? (fun r => r.unique_code == code)

/-- Failure modes of the store insert: the uniqueness-constraint rejection
(Postgres error code 23505) versus any other network/server error. -/
inductive InsertErr
  | conflict
  | network
deriving DecidableEq, Repr

/-- The store-side behaviour of `insert`: a network failure when the oracle
says so, a uniqueness-constraint rejection when the `unique_code` is
already present, otherwise the row is stored. -/
def insertRow (store : List DbRow) (row : DbRow) (netFail : Bool) :
    Except InsertErr (List DbRow) :=
  if netFail then .error .network
  else if (dbLookup store row.unique_code).isSome then .error .conflict
  else .ok (row :: store)

/-- Outcome of the Gemini `generateContent` call: an exception, or a
response whose `.text` may be absent or empty. -/
def GeminiOutcome := Except Unit (Option String)

/-- `analyzeScanPair` (src/services/geminiService.ts): returns
`response.text || "Scan verified by AI."` on success and the constant
fallback `"Verification complete."` on any caught failure; it never
throws. -/
def analyzeScanPair (o : Except Unit (Option String))
    (_partNumber _uniqueCode : String) : String :=
  match o with
  | .error _ => "Verification complete."
  | .ok t =>
    match t with
    | none => "Scan verified by AI."
    | some s => if s = "" then "Scan verified by AI." else s

/-- Oracle for one `handleSave` run: outcomes of the external calls plus
the generated id and captured timestamp. -/
structure SaveOracle where
  dupCheckFails : Bool
  annot : Except Unit (Option String)
  insertFails : Bool
  newId : String
  now : String

/-- Network requests a save run issues, in order. -/
inductive NetOp
  | dupCheck (code : String)
  | aiCall (p u : String)
  | insertOp (row : DbRow)
deriving DecidableEq, Repr

/-- Which exit path a save invocation took. -/
inductive SaveOutcome
  | incomplete
  | duplicate
  | duplicateDb
  | insertFailed
  | saved
  | notInvoked
deriving DecidableEq, Repr

/-- Result of a save invocation: new world, network trace, exit path. -/
structure SaveResult where
  w : World
  trace : List NetOp
  outcome : SaveOutcome
deriving DecidableEq, Repr

/-- Error message of the incomplete-session guard (src/App.tsx line 205). -/
def errScanBoth : String := "দয়া করে দুটি কোডই স্ক্যান করুন।"

/-- Duplicate pre-check error message (src/App.tsx line 220). -/
def errDuplicate : String := "ডুপ্লিকেট কোড: এই সিরিয়ালটি ইতিপূর্বে ব্যবহৃত হয়েছে।"

/-- Generic catch-all save error message (src/App.tsx line 254). -/
def errGeneric : String := "ডেটা ক্লাউডে পাঠাতে সমস্যা হয়েছে। ইন্টারনেট চেক করুন।"

/-- Success toast message (src/App.tsx line 251). -/
def msgSaved : String := "সফলভাবে সেভ করা হয়েছে।"

/-- `handleSave` (src/App.tsx lines 203-258).

Control flow mirrored from the source: the incomplete-session guard
returns before any network call; the duplicate pre-check destructures only
`data` (a failed query yields `null` data and the run proceeds); a found
duplicate sets the duplicate error and returns; `analyzeScanPair` is
awaited (it never throws); an insert error is thrown into the catch block,
which sets the generic error; the success path prepends the mapped record,
clears the session and sets the success toast; `finally` resets
`isAnalyzing` on every path past the guard. -/
def handleSave (o : SaveOracle) (w : World) : SaveResult :=
  if falsy w.app.session.partNumber || falsy w.app.session.uniqueCode then
    { w := { w with app := { w.app with error := some errScanBoth } },
      trace := [], outcome := .incomplete }
  else
    let p := w.app.session.partNumber.getD ""
    let u := w.app.session.uniqueCode.getD ""
    let app1 := { w.app with isAnalyzing := true, error := none }
    let existing := if o.dupCheckFails then none else dbLookup w.store u
    if existing.isSome then
      { w := { w with app :=
          { app1 with error := some errDuplicate, isAnalyzing := false } },
        trace := [.dupCheck u], outcome := .duplicate }
    else
      let analysisText := analyzeScanPair o.annot p u
      let row : DbRow :=
        { id := o.newId, part_number := p, unique_code := u,
          timestamp := o.now, analysis := analysisText }
      match insertRow w.store row o.insertFails with
      | .error _ =>
        { w := { w with app :=
            { app1 with error := some errGeneric, isAnalyzing := false } },
          trace := [.dupCheck u, .aiCall p u, .insertOp row],
          outcome := .insertFailed }
      | .ok store2 =>
        let newRec : ScannedRecord :=
          { id := o.newId, partNumber := p, uniqueCode := u,
            timestamp := o.now, status := .synced,
            analysis := some analysisText }
        let app2 : AppState :=
          { records := newRec :: w.app.records,
            session := { partNumber := none, uniqueCode := none },
            error := none, success := some msgSaved,
            isAnalyzing := false }
        { w := { app := app2, store := store2 },
          trace := [.dupCheck u, .aiCall p u, .insertOp row],
          outcome := .saved }

/-- Duplicate pre-check message of the src/unnamed/part_001 revision. -/
def errDuplicateV1 : String := "ডুপ্লিকেট কোড: ইতিপূর্বে ব্যবহৃত হয়েছে।"

/-- Insert-time duplicate (code 23505) message of src/unnamed/part_001. -/
def errDuplicateDbV1 : String := "ডুপ্লিকেট কোড: ডাটাবেসে রয়েছে।"

/-- Generic catch-all save error message of src/unnamed/part_001. -/
def errGenericV1 : String := "ডেটা সেভ করতে সমস্যা হয়েছে।"

/-- Success toast message of src/unnamed/part_001. -/
def msgSavedV1 : String := "সফলভাবে ক্লাউডে সেভ করা হয়েছে!"

/-- `handleSave` of the earlier App revision in src/unnamed/part_001.

Differs from src/App.tsx in its messages, in writing
`analysis || "Verified"` into the record, and in checking
`insertError.code === '23505'` to surface an insert-time uniqueness
violation as a duplicate message instead of throwing it into the generic
catch block. (That revision also resets the active scan target on
success; the active-target state is not part of this model.) -/
def handleSaveV1 (o : SaveOracle) (w : World) : SaveResult :=
  if falsy w.app.session.partNumber || falsy w.app.session.uniqueCode then
    { w := { w with app := { w.app with error := some errScanBoth } },
      trace := [], outcome := .incomplete }
  else
    let p := w.app.session.partNumber.getD ""
    let u := w.app.session.uniqueCode.getD ""
    let app1 := { w.app with isAnalyzing := true, error := none }
    let existing := if o.dupCheckFails then none else dbLookup w.store u
    if existing.isSome then
      { w := { w with app :=
          { app1 with error := some errDuplicateV1, isAnalyzing := false } },
        trace := [.dupCheck u], outcome := .duplicate }
    else
      let a0 := analyzeScanPair o.annot p u
      let analysisText := if a0 = "" then "Verified" else a0
      let row : DbRow :=
        { id := o.newId, part_number := p, unique_code := u,
          timestamp := o.now, analysis := analysisText }
      match insertRow w.store row o.insertFails with
      | .error .conflict =>
        let app2 : AppState :=
          { app1 with error := some errDuplicateDbV1, isAnalyzing := false }
        { w := { w with app := app2 },
          trace := [.dupCheck u, .aiCall p u, .insertOp row],
          outcome := .duplicateDb }
      | .error .network =>
        { w := { w with app :=
            { app1 with error := some errGenericV1, isAnalyzing := false } },
          trace := [.dupCheck u, .aiCall p u, .insertOp row],
          outcome := .insertFailed }
      | .ok store2 =>
        let newRec : ScannedRecord :=
          { id := o.newId, partNumber := p, uniqueCode := u,
            timestamp := o.now, status := .synced,
            analysis := some analysisText }
        let app2 : AppState :=
          { records := newRec :: w.app.records,
            session := { partNumber := none, uniqueCode := none },
            error := none, success := some msgSavedV1,
            isAnalyzing := false }
        { w := { app := app2, store := store2 },
          trace := [.dupCheck u, .aiCall p u, .insertOp row],
          outcome := .saved }

/-- Disabled condition of the Save button (src/App.tsx line 407):
`!session.partNumber || !session.uniqueCode || isAnalyzing`. -/
def saveDisabled (a : AppState) : Bool :=
  falsy a.session.partNumber || falsy a.session.uniqueCode || a.isAnalyzing

/-- A save trigger through the UI button: the click handler runs
`handleSave` only when the button is enabled; a click on the disabled
button is not invoked at all. -/
def clickSave (o : SaveOracle) (w : World) : SaveResult :=
  if saveDisabled w.app then { w := w, trace := [], outcome := .notInvoked }
  else handleSave o w

/-- Writing a decoded value into the session slot named by a target:
the computed-key spread `{ ...prev, [target]: cleaned }`. -/
def setSlot (target : ScanTarget) (v : String) (s : ScanSession) :
    ScanSession :=
  match target with
  | .PART_NUMBER => { s with partNumber := some v }
  | .UNIQUE_CODE => { s with uniqueCode := some v }

/-- Reading the session slot named by a target. -/
def getSlot (target : ScanTarget) (s : ScanSession) : Option String :=
  match target with
  | .PART_NUMBER => s.partNumber
  | .UNIQUE_CODE => s.uniqueCode

/-- The slot a given target does not name. -/
def otherTarget : ScanTarget → ScanTarget
  | .PART_NUMBER => .UNIQUE_CODE
  | .UNIQUE_CODE => .PART_NUMBER

/-- Session state visible to the scanner callback, plus the scanning
flag. -/
structure ScanState where
  session : ScanSession
  isScanning : Bool
deriving DecidableEq, Repr

/-- The decode success callback passed to `scanner.start` (src/App.tsx
lines 144-148): trims the decoded text, writes it into the slot of the
`target` that was active when `startScanner` was called, then calls
`stopScanner`, which clears the scanning flag. -/
def onDecode (target : ScanTarget) (decodedText : String)
    (st : ScanState) : ScanState :=
  { session := setSlot target decodedText.trim st.session,
    isScanning := false }

/-- A produced worksheet: the header row derived by
`XLSX.utils.json_to_sheet` from the object keys (absent when the mapped
array is empty), plus one cell row per array element. -/
structure Sheet where
  header : List String
  rows : List (List String)
deriving DecidableEq, Repr

/-- The object built per record in `exportToExcel` (src/App.tsx lines
280-285), in key order; `locale` stands for
`new Date(timestamp).toLocaleString()`. -/
def exportRow (locale : String → String) (r : ScannedRecord) :
    List String :=
  [r.partNumber, r.uniqueCode, locale r.timestamp, r.analysis.getD ""]

/-- `exportToExcel` (src/App.tsx lines 278-293): maps the in-memory record
list to a sheet and a dated filename. `today` stands for
`new Date().toISOString().split('T')[0]`. -/
def exportToExcel (locale : String → String) (today : String)
    (records : List ScannedRecord) : Sheet × String :=
  ({ header := if records.isEmpty then []
       else ["Part Number", "Unique Serial", "Date & Time", "Verification"],
     rows := records.map (exportRow locale) },
   "XtraPro_Report_" ++ today ++ ".xlsx")

/-- Error message of a failed fetch (src/App.tsx line 66). -/
def errLoad : String := "ডেটা লোড করতে সমস্যা হয়েছে।"

/-- Success message of a delete (src/App.tsx line 271). -/
def msgDeleted : String := "রেকর্ডটি মুছে ফেলা হয়েছে।"

/-- Error message of a failed delete (src/App.tsx line 274). -/
def errDelete : String := "রেকর্ড মুছতে সমস্যা হয়েছে।"

/-- The snake_case-to-camelCase row mapping of `fetchRecords`
(src/App.tsx lines 54-61); every fetched row gets status `'synced'`. -/
def mapRow (item : DbRow) : ScannedRecord :=
  { id := item.id, partNumber := item.part_number,
    uniqueCode := item.unique_code, timestamp := item.timestamp,
    status := .synced, analysis := some item.analysis }

/-- Insertion into a timestamp-descending list. -/
def insertDesc (r : DbRow) : List DbRow → List DbRow
  | [] => [r]
  | x :: xs =>
    if x.timestamp ≤ r.timestamp then r :: x :: xs else x :: insertDesc r xs

/-- The `.order('timestamp', { ascending: false })` clause of the fetch
query, as an insertion sort. -/
def orderByTimestampDesc (store : List DbRow) : List DbRow :=
  store.foldr insertDesc []

/-- `fetchRecords` (src/App.tsx lines 44-70): on failure only the error
message is set; on success the record list is replaced by the mapped
store contents. (The `isLoading` flag it also toggles is not part of
this model.) -/
def fetchRecords (fails : Bool) (w : World) : World :=
  if fails then { w with app := { w.app with error := some errLoad } }
  else
    { w with app := { w.app with
        records := (orderByTimestampDesc w.store).map mapRow } }

/-- `handleDelete` (src/App.tsx lines 260-276): behind a confirm dialog;
on store success, filters the record out of both the store and the
in-memory list. -/
def handleDelete (confirmed fails : Bool) (id : String) (w : World) :
    World :=
  if !confirmed then w
  else if fails then
    { w with app := { w.app with error := some errDelete } }
  else
    { app := { w.app with
        records := w.app.records.filter (fun r => r.id != id),
        success := some msgDeleted },
      store := w.store.filter (fun r => r.id != id) }

/-- The operations of the App component that can touch its state, each
with the oracle data its external calls need. -/
inductive AppOp
  | fetchOp (fails : Bool)
  | saveOp (o : SaveOracle)
  | deleteRec (confirmed fails : Bool) (id : String)
  | resetOp
  | decodeOp (target : ScanTarget) (text : String)

/-- One step of the component. `resetOp` is the Reset button
(src/App.tsx line 435); `decodeOp` is a successful scanner decode. -/
def applyOp (w : World) : AppOp → World
  | .fetchOp fails => fetchRecords fails w
  | .saveOp o => (handleSave o w).w
  | .deleteRec c f id => handleDelete c f id w
  | .resetOp =>
    { w with app := { w.app with
        session := { partNumber := none, uniqueCode := none } } }
  | .decodeOp t text =>
    { w with app := { w.app with
        session := setSlot t text.trim w.app.session } }

/-- Running a sequence of operations. -/
def applyOps (w : World) : List AppOp → World := List.foldl applyOp w

/-- The component's initial state (src/App.tsx lines 33-40) over a given
remote store. -/
def initWorld (store : List DbRow) : World :=
  { app := { records := []
             session := { partNumber := none, uniqueCode := none }
             error := none
             success := none
             isAnalyzing := false }
    store := store }

/-! ### Path characterization of the save runs

Abbreviations for the values `handleSave` computes on each exit path, and
a restructuring lemma (proved by `rfl`) that lets proofs case on the
insert result. -/

/-- The part number `handleSave` reads from the session. -/
def pOf (w : World) : String := w.app.session.partNumber.getD ""

/-- The unique code `handleSave` reads from the session. -/
def uOf (w : World) : String := w.app.session.uniqueCode.getD ""

/-- The incomplete-session guard condition. -/
def guardFails (w : World) : Bool :=
  falsy w.app.session.partNumber || falsy w.app.session.uniqueCode

/-- The duplicate pre-check result `handleSave` sees. -/
def preExisting (o : SaveOracle) (w : World) : Option DbRow :=
  if o.dupCheckFails then none else dbLookup w.store (uOf w)

/-- The annotation text a save run obtains. -/
def aOf (o : SaveOracle) (w : World) : String :=
  analyzeScanPair o.annot (pOf w) (uOf w)

/-- The row a save run sends to the store. -/
def saveRow (o : SaveOracle) (w : World) : DbRow :=
  { id := o.newId, part_number := pOf w, unique_code := uOf w,
    timestamp := o.now, analysis := aOf o w }

/-- The full network trace of a save run that reaches the insert. -/
def saveTrace (o : SaveOracle) (w : World) : List NetOp :=
  [.dupCheck (uOf w), .aiCall (pOf w) (uOf w), .insertOp (saveRow o w)]

/-- Result of the incomplete-session exit. -/
def incompleteResult (w : World) : SaveResult :=
  { w := { w with app := { w.app with error := some errScanBoth } },
    trace := [], outcome := .incomplete }

/-- Result of the duplicate pre-check exit. -/
def dupResult (w : World) : SaveResult :=
  let app2 : AppState :=
    { w.app with error := some errDuplicate, isAnalyzing := false }
  { w := { w with app := app2 },
    trace := [.dupCheck (uOf w)], outcome := .duplicate }

/-- Result of the thrown-insert-error exit. -/
def failResult (o : SaveOracle) (w : World) : SaveResult :=
  let app2 : AppState :=
    { w.app with error := some errGeneric, isAnalyzing := false }
  { w := { w with app := app2 },
    trace := saveTrace o w, outcome := .insertFailed }

/-- The record the success path prepends to the history list. -/
def okRecord (o : SaveOracle) (w : World) : ScannedRecord :=
  { id := o.newId, partNumber := pOf w, uniqueCode := uOf w,
    timestamp := o.now, status := .synced, analysis := some (aOf o w) }

/-- Result of the success exit. -/
def okResult (o : SaveOracle) (w : World) (store2 : List DbRow) :
    SaveResult :=
  { w := { app := { records := okRecord o w :: w.app.records
                    session := { partNumber := none, uniqueCode := none }
                    error := none
                    success := some msgSaved
                    isAnalyzing := false }
           store := store2 }
    trace := saveTrace o w
    outcome := .saved }

/-- `handleSave` on an incomplete session. -/
theorem handleSave_incomplete (o : SaveOracle) (w : World)
    (hg : guardFails w = true) :
    handleSave o w = incompleteResult w := by
  unfold guardFails at hg
  unfold handleSave incompleteResult
  simp [hg]

/-- `handleSave` when the duplicate pre-check finds a row. -/
theorem handleSave_dup (o : SaveOracle) (w : World)
    (hg : guardFails w = false) (hd : (preExisting o w).isSome = true) :
    handleSave o w = dupResult w := by
  unfold guardFails at hg
  unfold preExisting uOf at hd
  unfold handleSave dupResult uOf
  simp [hg, hd]

/-- `handleSave` when the insert comes back with an error. -/
theorem handleSave_insertErr (o : SaveOracle) (w : World) (e : InsertErr)
    (hg : guardFails w = false) (hd : (preExisting o w).isSome = false)
    (hi : insertRow w.store (saveRow o w) o.insertFails = .error e) :
    handleSave o w = failResult o w := by
  unfold guardFails at hg
  unfold preExisting uOf at hd
  unfold saveRow aOf pOf uOf at hi
  unfold handleSave failResult saveTrace saveRow aOf pOf uOf
  simp [hg, hd, hi]

/-- `handleSave` when the insert succeeds. -/
theorem handleSave_ok (o : SaveOracle) (w : World) (store2 : List DbRow)
    (hg : guardFails w = false) (hd : (preExisting o w).isSome = false)
    (hi : insertRow w.store (saveRow o w) o.insertFails = .ok store2) :
    handleSave o w = okResult o w store2 := by
  unfold guardFails at hg
  unfold preExisting uOf at hd
  unfold saveRow aOf pOf uOf at hi
  unfold handleSave okResult okRecord saveTrace saveRow aOf pOf uOf
  simp [hg, hd, hi]

/-- The annotation text with the `analysis || "Verified"` fallback the
part_001 revision applies. -/
def aV1Of (o : SaveOracle) (w : World) : String :=
  if aOf o w = "" then "Verified" else aOf o w

/-- The row the part_001 revision sends to the store. -/
def saveRowV1 (o : SaveOracle) (w : World) : DbRow :=
  { id := o.newId, part_number := pOf w, unique_code := uOf w,
    timestamp := o.now, analysis := aV1Of o w }

/-- The full network trace of a part_001 save run reaching the insert. -/
def saveTraceV1 (o : SaveOracle) (w : World) : List NetOp :=
  [.dupCheck (uOf w), .aiCall (pOf w) (uOf w), .insertOp (saveRowV1 o w)]

/-- Result of the duplicate pre-check exit in part_001. -/
def dupResultV1 (w : World) : SaveResult :=
  let app2 : AppState :=
    { w.app with error := some errDuplicateV1, isAnalyzing := false }
  { w := { w with app := app2 },
    trace := [.dupCheck (uOf w)], outcome := .duplicate }

/-- Result of the insert-time 23505 duplicate exit in part_001. -/
def dupDbResultV1 (o : SaveOracle) (w : World) : SaveResult :=
  let app2 : AppState :=
    { w.app with error := some errDuplicateDbV1, isAnalyzing := false }
  { w := { w with app := app2 },
    trace := saveTraceV1 o w, outcome := .duplicateDb }

/-- Result of the thrown-insert-error exit in part_001. -/
def failResultV1 (o : SaveOracle) (w : World) : SaveResult :=
  let app2 : AppState :=
    { w.app with error := some errGenericV1, isAnalyzing := false }
  { w := { w with app := app2 },
    trace := saveTraceV1 o w, outcome := .insertFailed }

/-- The record the part_001 success path prepends. -/
def okRecordV1 (o : SaveOracle) (w : World) : ScannedRecord :=
  { id := o.newId, partNumber := pOf w, uniqueCode := uOf w,
    timestamp := o.now, status := .synced, analysis := some (aV1Of o w) }

/-- Result of the success exit in part_001. -/
def okResultV1 (o : SaveOracle) (w : World) (store2 : List DbRow) :
    SaveResult :=
  { w := { app := { records := okRecordV1 o w :: w.app.records
                    session := { partNumber := none, uniqueCode := none }
                    error := none
                    success := some msgSavedV1
                    isAnalyzing := false }
           store := store2 }
    trace := saveTraceV1 o w
    outcome := .saved }

/-- `handleSaveV1` when the duplicate pre-check finds a row. -/
theorem handleSaveV1_dup (o : SaveOracle) (w : World)
    (hg : guardFails w = false) (hd : (preExisting o w).isSome = true) :
    handleSaveV1 o w = dupResultV1 w := by
  unfold guardFails at hg
  unfold preExisting uOf at hd
  unfold handleSaveV1 dupResultV1 uOf
  simp [hg, hd]

/-- `handleSaveV1` when the insert is rejected with code 23505. -/
theorem handleSaveV1_conflict (o : SaveOracle) (w : World)
    (hg : guardFails w = false) (hd : (preExisting o w).isSome = false)
    (hi : insertRow w.store (saveRowV1 o w) o.insertFails =
      .error .conflict) :
    handleSaveV1 o w = dupDbResultV1 o w := by
  unfold guardFails at hg
  unfold preExisting uOf at hd
  unfold saveRowV1 aV1Of aOf pOf uOf at hi
  unfold handleSaveV1 dupDbResultV1 saveTraceV1 saveRowV1 aV1Of aOf pOf uOf
  simp [hg, hd, hi]

/-- `handleSaveV1` when the insert fails with a non-constraint error. -/
theorem handleSaveV1_insertErr (o : SaveOracle) (w : World)
    (hg : guardFails w = false) (hd : (preExisting o w).isSome = false)
    (hi : insertRow w.store (saveRowV1 o w) o.insertFails =
      .error .network) :
    handleSaveV1 o w = failResultV1 o w := by
  unfold guardFails at hg
  unfold preExisting uOf at hd
  unfold saveRowV1 aV1Of aOf pOf uOf at hi
  unfold handleSaveV1 failResultV1 saveTraceV1 saveRowV1 aV1Of aOf pOf uOf
  simp [hg, hd, hi]

/-! ### Concrete fixtures used by witnesses and counterexamples -/

/-- A stored row holding unique code S123. -/
def rowS123 : DbRow :=
  { id := "id-0", part_number := "P0", unique_code := "S123",
    timestamp := "2026-01-01T00:00:00Z", analysis := "Verified" }

/-- A complete session pairing P1 with S123. -/
def sessS123 : ScanSession := { partNumber := some "P1", uniqueCode := some "S123" }

/-- Idle component state over the complete session. -/
def appS123 : AppState :=
  { records := [], session := sessS123, error := none, success := none,
    isAnalyzing := false }

/-- World whose store already holds S123. -/
def wDup : World := { app := appS123, store := [rowS123] }

/-- World whose store does not hold S123. -/
def wFresh : World := { app := appS123, store := [] }

/-- Oracle for a fully successful run. -/
def oPlain : SaveOracle :=
  { dupCheckFails := false, annot := .ok (some "AI note"),
    insertFails := false, newId := "id-1", now := "2026-02-02T00:00:00Z" }

/-- Oracle whose duplicate pre-check query fails silently. -/
def oDupCheckDown : SaveOracle :=
  { dupCheckFails := true, annot := .ok (some "AI note"),
    insertFails := false, newId := "id-1", now := "2026-02-02T00:00:00Z" }

/-- Oracle whose annotation call throws. -/
def oAnnFail : SaveOracle :=
  { dupCheckFails := false, annot := .error (),
    insertFails := false, newId := "id-1", now := "2026-02-02T00:00:00Z" }

/-- World as left mid-flight by a first save run that has set the
analyzing flag and not yet inserted. -/
def wMidSave : World := { app := { appS123 with isAnalyzing := true }, store := [] }

/-! ### Claims -/

/-- Claim C1: for every save attempt that fails for any reason other than
success, the session slots after `handleSave` returns are exactly their
pre-attempt values; the session is cleared only on the success path. -/
theorem claim_C1_session_frame (o : SaveOracle) (w : World) :
    ((handleSave o w).outcome ≠ .saved →
      (handleSave o w).w.app.session = w.app.session) ∧
    ((handleSave o w).outcome = .saved →
      (handleSave o w).w.app.session =
        { partNumber := none, uniqueCode := none }) := by
  by_cases hg : guardFails w = true
  · rw [handleSave_incomplete o w hg]
    simp [incompleteResult]
  · have hg' : guardFails w = false := by simpa using hg
    by_cases hd : (preExisting o w).isSome = true
    · rw [handleSave_dup o w hg' hd]
      simp [dupResult]
    · have hd' : (preExisting o w).isSome = false := by simpa using hd
      cases hi : insertRow w.store (saveRow o w) o.insertFails with
      | error e =>
        rw [handleSave_insertErr o w e hg' hd' hi]
        simp [failResult]
      | ok store2 =>
        rw [handleSave_ok o w store2 hg' hd' hi]
        simp [okResult]

/-- Witness for C1 at a concrete duplicate-rejected save. -/
theorem claim_C1_session_frame_witness :
    (handleSave oPlain wDup).w.app.session = wDup.app.session :=
  (claim_C1_session_frame oPlain wDup).1 (by decide)

/-- Claim C2: a session whose unique code already appears in the store is
rejected by the pre-check before annotation and before insert, with the
duplicate message, leaving session, store and history unchanged. -/
theorem claim_C2_duplicate_precheck (o : SaveOracle) (w : World)
    (u : String) (row : DbRow)
    (hu : w.app.session.uniqueCode = some u) (hune : u ≠ "")
    (hp : falsy w.app.session.partNumber = false)
    (hrow : dbLookup w.store u = some row)
    (hnet : o.dupCheckFails = false) :
    (handleSave o w).outcome = .duplicate ∧
    (handleSave o w).trace = [.dupCheck u] ∧
    (handleSave o w).w.app.error = some errDuplicate ∧
    (handleSave o w).w.app.session = w.app.session ∧
    (handleSave o w).w.store = w.store ∧
    (handleSave o w).w.app.records = w.app.records := by
  have hpu : falsy (some u) = false := by simp [falsy, hune]
  have hg : guardFails w = false := by
    simp [guardFails, hp, hu, hpu]
  have hd : (preExisting o w).isSome = true := by
    simp [preExisting, hnet, uOf, hu, hrow]
  rw [handleSave_dup o w hg hd]
  simp [dupResult, uOf, hu]

/-- Witness for C2 at a concrete store already holding S123. -/
theorem claim_C2_duplicate_precheck_witness :
    (handleSave oPlain wDup).outcome = .duplicate ∧
    (handleSave oPlain wDup).trace = [.dupCheck "S123"] ∧
    (handleSave oPlain wDup).w.store = wDup.store :=
  have h := claim_C2_duplicate_precheck oPlain wDup "S123" rowS123
    (by decide) (by decide) (by decide) (by decide) (by decide)
  ⟨h.1, h.2.1, h.2.2.2.2.1⟩

/-- Claim C6: a session with an unset or empty slot is rejected with an
error and performs no network call at all. -/
theorem claim_C6_incomplete_rejected (o : SaveOracle) (w : World)
    (h : guardFails w = true) :
    (handleSave o w).trace = [] ∧
    (handleSave o w).outcome = .incomplete ∧
    (handleSave o w).w.app.error = some errScanBoth ∧
    (handleSave o w).w.app.session = w.app.session ∧
    (handleSave o w).w.store = w.store ∧
    (handleSave o w).w.app.records = w.app.records := by
  rw [handleSave_incomplete o w h]
  simp [incompleteResult]

/-- Witness for C6 at a session missing its unique code. -/
theorem claim_C6_incomplete_rejected_witness :
    (handleSave oPlain
      { app := { appS123 with
          session := { partNumber := some "P1", uniqueCode := none } },
        store := [] }).trace = [] :=
  (claim_C6_incomplete_rejected oPlain _ (by decide)).1

/-- Claim C7: a successful decode trims the text and writes it into
exactly the slot of the target active at scanner start, then stops
scanning; a second decode into the same slot wins, and the other slot is
never disturbed. -/
theorem claim_C7_decode_slot (t : ScanTarget) (d d1 d2 : String)
    (st : ScanState) :
    getSlot t (onDecode t d st).session = some d.trim ∧
    getSlot (otherTarget t) (onDecode t d st).session =
      getSlot (otherTarget t) st.session ∧
    (onDecode t d st).isScanning = false ∧
    getSlot t (onDecode t d2 (onDecode t d1 st)).session =
      some d2.trim := by
  cases t <;> simp [onDecode, getSlot, setSlot, otherTarget]

/-- Success-path characterization shared by several claims: a complete
session whose code is not yet stored, with a working insert, runs to the
success exit. -/
theorem handleSave_success (o : SaveOracle) (w : World) (p u : String)
    (hp : w.app.session.partNumber = some p) (hpne : p ≠ "")
    (hu : w.app.session.uniqueCode = some u) (hune : u ≠ "")
    (hdup : dbLookup w.store u = none) (hins : o.insertFails = false) :
    (handleSave o w).outcome = .saved ∧
    (handleSave o w).w.app.records =
      { id := o.newId, partNumber := p, uniqueCode := u,
        timestamp := o.now, status := .synced,
        analysis := some (analyzeScanPair o.annot p u) } ::
        w.app.records ∧
    (handleSave o w).w.app.session =
      { partNumber := none, uniqueCode := none } ∧
    (handleSave o w).w.app.success = some msgSaved ∧
    (handleSave o w).w.app.error = none ∧
    (handleSave o w).w.app.isAnalyzing = false ∧
    (handleSave o w).w.store =
      { id := o.newId, part_number := p, unique_code := u,
        timestamp := o.now,
        analysis := analyzeScanPair o.annot p u } :: w.store := by
  have hpp : falsy (some p) = false := by simp [falsy, hpne]
  have hpu : falsy (some u) = false := by simp [falsy, hune]
  have hg : guardFails w = false := by simp [guardFails, hp, hu, hpp, hpu]
  have hd : (preExisting o w).isSome = false := by
    simp [preExisting, uOf, hu, hdup]
  have hi : insertRow w.store (saveRow o w) o.insertFails =
      .ok (saveRow o w :: w.store) := by
    simp [insertRow, saveRow, uOf, hu, hdup, hins]
  rw [handleSave_ok o w _ hg hd hi]
  simp [okResult, okRecord, saveRow, aOf, pOf, uOf, hp, hu]

/-- Claim C8: on a successful insert the commit step performs exactly:
prepend the new record (generated id, the two codes, captured timestamp,
annotation text, status synced) to the history list, clear both session
slots, and emit the success notification. -/
theorem claim_C8_commit (o : SaveOracle) (w : World) (p u : String)
    (hp : w.app.session.partNumber = some p) (hpne : p ≠ "")
    (hu : w.app.session.uniqueCode = some u) (hune : u ≠ "")
    (hdup : dbLookup w.store u = none) (hins : o.insertFails = false) :
    (handleSave o w).outcome = .saved ∧
    (handleSave o w).w.app.records =
      { id := o.newId, partNumber := p, uniqueCode := u,
        timestamp := o.now, status := .synced,
        analysis := some (analyzeScanPair o.annot p u) } ::
        w.app.records ∧
    (handleSave o w).w.app.session =
      { partNumber := none, uniqueCode := none } ∧
    (handleSave o w).w.app.success = some msgSaved :=
  have h := handleSave_success o w p u hp hpne hu hune hdup hins
  ⟨h.1, h.2.1, h.2.2.1, h.2.2.2.1⟩

/-- Witness for C8 at a concrete fresh save. -/
theorem claim_C8_commit_witness :
    (handleSave oPlain wFresh).outcome = .saved ∧
    (handleSave oPlain wFresh).w.app.session =
      { partNumber := none, uniqueCode := none } ∧
    (handleSave oPlain wFresh).w.app.success = some msgSaved :=
  have h := claim_C8_commit oPlain wFresh "P1" "S123"
    (by decide) (by decide) (by decide) (by decide) (by decide) (by decide)
  ⟨h.1, h.2.2.1, h.2.2.2⟩

/-- Claim C5: `analyzeScanPair` never raises — on any internal failure it
returns the fixed fallback constant — so a failing annotation call never
aborts the save, and the saved record's analysis field equals the
fallback string. -/
theorem claim_C5_annotation_fallback (o : SaveOracle) (w : World)
    (p u : String)
    (hp : w.app.session.partNumber = some p) (hpne : p ≠ "")
    (hu : w.app.session.uniqueCode = some u) (hune : u ≠ "")
    (hann : o.annot = .error ())
    (hdup : dbLookup w.store u = none) (hins : o.insertFails = false) :
    analyzeScanPair o.annot p u = "Verification complete." ∧
    (handleSave o w).outcome = .saved ∧
    (handleSave o w).w.app.records.head? =
      some { id := o.newId, partNumber := p, uniqueCode := u,
             timestamp := o.now, status := .synced,
             analysis := some "Verification complete." } := by
  have hfall : analyzeScanPair o.annot p u = "Verification complete." := by
    rw [hann]; rfl
  have h := handleSave_success o w p u hp hpne hu hune hdup hins
  refine ⟨hfall, h.1, ?_⟩
  rw [h.2.1, hfall]
  rfl

/-- Witness for C5 at a concrete save whose annotation call throws. -/
theorem claim_C5_annotation_fallback_witness :
    analyzeScanPair oAnnFail.annot "P1" "S123" = "Verification complete." ∧
    (handleSave oAnnFail wFresh).outcome = .saved ∧
    (handleSave oAnnFail wFresh).w.app.records.head? =
      some { id := "id-1", partNumber := "P1", uniqueCode := "S123",
             timestamp := "2026-02-02T00:00:00Z", status := .synced,
             analysis := some "Verification complete." } :=
  claim_C5_annotation_fallback oAnnFail wFresh "P1" "S123"
    (by decide) (by decide) (by decide) (by decide) rfl
    (by decide) (by decide)

/-- Counterexample to claim C3: in src/App.tsx, when the duplicate
pre-check query fails silently and the store then rejects the insert on
the uniqueness constraint, the surfaced error is the generic save-failure
message — identical to the one a network insert failure produces and
different from the duplicate pre-check message — so the conflict is not
surfaced as a distinguishable duplicate-conflict failure. -/
theorem claim_C3_counterexample :
    (handleSave oDupCheckDown wDup).outcome = .insertFailed ∧
    (handleSave oDupCheckDown wDup).w.app.error = some errGeneric ∧
    errGeneric ≠ errDuplicate ∧
    handleSave oDupCheckDown wDup =
      handleSave { oDupCheckDown with insertFails := true } wDup := by
  decide

/-- Claim C3 as amended: in src/App.tsx a uniqueness-constraint rejection
at insert time is thrown into the generic catch block — the session is
left untouched but the surfaced failure is the generic save-failure, not
a distinguishable duplicate conflict; only the part_001 revision checks
error code 23505 and surfaces it as a duplicate-conflict message while
likewise leaving the session untouched. -/
theorem claim_C3_amended (o : SaveOracle) (w : World) (p u : String)
    (hp : w.app.session.partNumber = some p) (hpne : p ≠ "")
    (hu : w.app.session.uniqueCode = some u) (hune : u ≠ "")
    (hdc : o.dupCheckFails = true)
    (hrow : (dbLookup w.store u).isSome = true)
    (hins : o.insertFails = false) :
    (handleSave o w).outcome = .insertFailed ∧
    (handleSave o w).w.app.error = some errGeneric ∧
    (handleSave o w).w.app.session = w.app.session ∧
    (handleSave o w).w.store = w.store ∧
    (handleSaveV1 o w).outcome = .duplicateDb ∧
    (handleSaveV1 o w).w.app.error = some errDuplicateDbV1 ∧
    (handleSaveV1 o w).w.app.session = w.app.session ∧
    (handleSaveV1 o w).w.store = w.store := by
  have hpp : falsy (some p) = false := by simp [falsy, hpne]
  have hpu : falsy (some u) = false := by simp [falsy, hune]
  have hg : guardFails w = false := by simp [guardFails, hp, hu, hpp, hpu]
  have hd : (preExisting o w).isSome = false := by
    simp [preExisting, hdc]
  have hi : insertRow w.store (saveRow o w) o.insertFails =
      .error .conflict := by
    simp [insertRow, saveRow, uOf, hu, hins, hrow]
  have hiV1 : insertRow w.store (saveRowV1 o w) o.insertFails =
      .error .conflict := by
    simp [insertRow, saveRowV1, uOf, hu, hins, hrow]
  rw [handleSave_insertErr o w .conflict hg hd hi,
    handleSaveV1_conflict o w hg hd hiV1]
  simp [failResult, dupDbResultV1]

/-- Witness for the amended C3 at the concrete conflicting store. -/
theorem claim_C3_amended_witness :
    (handleSave oDupCheckDown wDup).w.app.error = some errGeneric ∧
    (handleSaveV1 oDupCheckDown wDup).w.app.error =
      some errDuplicateDbV1 ∧
    (handleSaveV1 oDupCheckDown wDup).w.app.session = wDup.app.session :=
  have h := claim_C3_amended oDupCheckDown wDup "P1" "S123"
    (by decide) (by decide) (by decide) (by decide) (by decide)
    (by decide) (by decide)
  ⟨h.2.1, h.2.2.2.2.2.1, h.2.2.2.2.2.2.1⟩

/-- Counterexample to claim C4: `handleSave` has no internal in-flight
guard — invoked raw on a state whose analyzing flag is already set (as a
second invocation mid-save would be), it is executed rather than rejected
or deferred: it runs its full network sequence and inserts. -/
theorem claim_C4_counterexample :
    wMidSave.app.isAnalyzing = true ∧
    (handleSave oPlain wMidSave).outcome = .saved ∧
    (handleSave oPlain wMidSave).trace =
      [.dupCheck "S123", .aiCall "P1" "S123",
       .insertOp { id := "id-1", part_number := "P1",
                   unique_code := "S123",
                   timestamp := "2026-02-02T00:00:00Z",
                   analysis := "AI note" }] := by
  decide

/-- Claim C4 as amended: re-entrancy is prevented only at the UI — the
Save button's disabled condition includes the analyzing flag, so a second
save trigger through the button while a save is in flight is not invoked
and changes nothing; `handleSave` itself carries no in-flight guard. -/
theorem claim_C4_amended (o : SaveOracle) (w : World)
    (h : w.app.isAnalyzing = true) :
    clickSave o w = { w := w, trace := [], outcome := .notInvoked } := by
  unfold clickSave saveDisabled
  simp [h]

/-- Witness for the amended C4 at the concrete mid-save state. -/
theorem claim_C4_amended_witness :
    clickSave oPlain wMidSave =
      { w := wMidSave, trace := [], outcome := .notInvoked } :=
  claim_C4_amended oPlain wMidSave (by decide)

/-- A concrete record for export fixtures. -/
def recExport : ScannedRecord :=
  { id := "id-1", partNumber := "P1", uniqueCode := "S1",
    timestamp := "2026-01-01T00:00:00Z", status := .synced,
    analysis := some "Verified" }

/-- Counterexample to claim C9: the produced sheet's columns are
Part Number, Unique Serial, Date & Time, Verification — not the four
columns Timestamp, Part Number, Unique Serial, Analysis in that order. -/
theorem claim_C9_counterexample :
    (exportToExcel id "2026-10-11" [recExport]).1.header =
      ["Part Number", "Unique Serial", "Date & Time", "Verification"] ∧
    (exportToExcel id "2026-10-11" [recExport]).1.header ≠
      ["Timestamp", "Part Number", "Unique Serial", "Analysis"] := by
  decide

/-- Claim C9 as amended: export is a pure function of the record list —
over an empty list it produces an empty sheet without error, over N
records exactly N data rows of four cells under the columns Part Number,
Unique Serial, Date & Time, Verification in that order, with the filename
stamped with the export date. -/
theorem claim_C9_amended (locale : String → String) (today : String)
    (records : List ScannedRecord) :
    (exportToExcel locale today records).1.rows.length =
      records.length ∧
    (∀ row ∈ (exportToExcel locale today records).1.rows,
      row.length = 4) ∧
    (records = [] → (exportToExcel locale today records).1 =
      { header := [], rows := [] }) ∧
    (records ≠ [] → (exportToExcel locale today records).1.header =
      ["Part Number", "Unique Serial", "Date & Time", "Verification"]) ∧
    (exportToExcel locale today records).2 =
      "XtraPro_Report_" ++ today ++ ".xlsx" := by
  refine ⟨by simp [exportToExcel], ?_, ?_, ?_, by simp [exportToExcel]⟩
  · intro row hrow
    simp [exportToExcel] at hrow
    obtain ⟨r, _, rfl⟩ := hrow
    simp [exportRow]
  · intro h
    subst h
    simp [exportToExcel]
  · intro h
    simp [exportToExcel, h]

/-- Witness for the amended C9 at an empty and a one-record list. -/
theorem claim_C9_amended_witness :
    (exportToExcel id "2026-10-11" ([] : List ScannedRecord)).1 =
      { header := [], rows := [] } ∧
    (exportToExcel id "2026-10-11" [recExport]).1.header =
      ["Part Number", "Unique Serial", "Date & Time", "Verification"] ∧
    (exportToExcel id "2026-10-11" [recExport]).1.rows.length = 1 :=
  ⟨(claim_C9_amended id "2026-10-11" []).2.2.1 rfl,
   (claim_C9_amended id "2026-10-11" [recExport]).2.2.2.1 (by decide),
   (claim_C9_amended id "2026-10-11" [recExport]).1⟩

/-- The record list after a save is either unchanged or gains the synced
record of the success path at the front. -/
theorem handleSave_records (o : SaveOracle) (w : World) :
    (handleSave o w).w.app.records = w.app.records ∨
    (handleSave o w).w.app.records = okRecord o w :: w.app.records := by
  by_cases hg : guardFails w = true
  · rw [handleSave_incomplete o w hg]
    left; simp [incompleteResult]
  · have hg' : guardFails w = false := by simpa using hg
    by_cases hd : (preExisting o w).isSome = true
    · rw [handleSave_dup o w hg' hd]
      left; simp [dupResult]
    · have hd' : (preExisting o w).isSome = false := by simpa using hd
      cases hi : insertRow w.store (saveRow o w) o.insertFails with
      | error e =>
        rw [handleSave_insertErr o w e hg' hd' hi]
        left; simp [failResult]
      | ok store2 =>
        rw [handleSave_ok o w store2 hg' hd' hi]
        right; simp [okResult]

/-- Any record present after one component step was already present or
has status synced. -/
theorem mem_records_applyOp (w : World) (op : AppOp) (r : ScannedRecord)
    (hr : r ∈ (applyOp w op).app.records) :
    r ∈ w.app.records ∨ r.status = .synced := by
  cases op with
  | fetchOp fails =>
    cases fails with
    | true =>
      simp [applyOp, fetchRecords] at hr
      exact .inl hr
    | false =>
      simp [applyOp, fetchRecords] at hr
      obtain ⟨x, _, rfl⟩ := hr
      right
      simp [mapRow]
  | saveOp o =>
    have hap : (applyOp w (.saveOp o)).app.records =
        (handleSave o w).w.app.records := rfl
    rw [hap] at hr
    rcases handleSave_records o w with h | h
    · rw [h] at hr
      exact .inl hr
    · rw [h] at hr
      rcases List.mem_cons.mp hr with rfl | hr
      · right; simp [okRecord]
      · exact .inl hr
  | deleteRec c f id =>
    cases c with
    | false =>
      simp [applyOp, handleDelete] at hr
      exact .inl hr
    | true =>
      cases f with
      | true =>
        simp [applyOp, handleDelete] at hr
        exact .inl hr
      | false =>
        simp [applyOp, handleDelete] at hr
        exact .inl hr.1
  | resetOp =>
    simp [applyOp] at hr
    exact .inl hr
  | decodeOp t text =>
    simp [applyOp] at hr
    exact .inl hr

/-- The synced-only invariant is preserved along any operation
sequence. -/
theorem records_synced_applyOps (ops : List AppOp) (w : World)
    (hw : ∀ r ∈ w.app.records, r.status = .synced) :
    ∀ r ∈ (applyOps w ops).app.records, r.status = .synced := by
  induction ops generalizing w with
  | nil => exact hw
  | cons op ops ih =>
    have hstep : ∀ r ∈ (applyOp w op).app.records, r.status = .synced := by
      intro r hr
      rcases mem_records_applyOp w op r hr with h | h
      · exact hw r h
      · exact h
    exact ih (applyOp w op) hstep

/-- Claim C10: starting from the empty history, every record that ever
appears in the in-memory list has status synced — the fetch mapping, the
save commit and the delete filter never produce the declared pending
status. -/
theorem claim_C10_all_synced (store : List DbRow) (ops : List AppOp)
    (r : ScannedRecord)
    (hr : r ∈ (applyOps (initWorld store) ops).app.records) :
    r.status = .synced :=
  records_synced_applyOps ops (initWorld store) (by simp [initWorld]) r hr

/-- Witness for C10: a fetched record is synced. -/
theorem claim_C10_all_synced_witness :
    mapRow rowS123 ∈
      (applyOps (initWorld [rowS123]) [.fetchOp false]).app.records ∧
    (mapRow rowS123).status = .synced :=
  ⟨by decide,
   claim_C10_all_synced [rowS123] [.fetchOp false] (mapRow rowS123)
     (by decide)⟩

end QrScaner
